import Mathlib

/-!
Verification of tockerdui's state manager (`src/tockerdui/state.py`) and
cache layer (`src/tockerdui/cache.py`).

The Python code is shallowly embedded:
  * dataclasses become Lean structures;
  * `StateManager` methods become pure functions `AppState → AppState`
    (the `RLock` only serialises calls, so each method is one atomic
    state transition; `StateManager._version` is carried as the
    `version` field of the embedded state);
  * Python floats (timestamps, TTLs) are embedded as rationals `ℚ`;
  * Python ints that the code keeps non-negative are embedded as `ℕ`,
    with the clamping arithmetic done in `ℤ` exactly as written;
  * `CacheManager._cache` (an insertion-ordered dict) is an association
    list whose update keeps the position of an existing key, as a Python
    dict does.
-/

/-! ## Python string primitives

Python compares strings lexicographically by code point, lowercases
per character, and `needle in hay` is substring containment.  These are
embedded on `List Char` so that everything reduces in the kernel. -/

/-- Lexicographic code-point comparison, the semantics of Python `<` on
strings. -/
def charsLt : List Char → List Char → Bool
  | [], [] => false
  | [], _ :: _ => true
  | _ :: _, [] => false
  | a :: as, b :: bs =>
    if a.toNat < b.toNat then true
    else if b.toNat < a.toNat then false
    else charsLt as bs

/-- Python `a < b` on strings. -/
def strLtB (a b : String) : Bool := charsLt a.data b.data

/-- Python `s.lower()` (per-character lowercasing), kept as a char list. -/
def pyLower (s : String) : List Char := s.data.map Char.toLower

/-- Boolean list-prefix test (used for Python `str.startswith` and for
substring search). -/
def isPrefixL : List Char → List Char → Bool
  | [], _ => true
  | _ :: _, [] => false
  | a :: as, b :: bs => a = b && isPrefixL as bs

/-- Python `needle in hay` substring containment on char lists. -/
def containsSub : List Char → List Char → Bool
  | [], needle => isPrefixL needle []
  | h :: t, needle => isPrefixL needle (h :: t) || containsSub t needle

/-- Python `key.startswith(p)`. -/
def pyStartsWith (key p : String) : Bool := isPrefixL p.data key.data

/-- Python `s.strip(c)`: remove all leading and trailing occurrences of the
character `c`. -/
def pyStrip (c : Char) (s : List Char) : List Char :=
  ((s.dropWhile (· = c)).reverse.dropWhile (· = c)).reverse

/-! ## Stable sort

Python's `list.sort(key=...)` is a stable sort by the key's `<` order.
`sortByKey lt` is a stable insertion sort with the same extensional
behaviour for the (total-preorder) keys the program uses; `lt x y` embeds
"key of x < key of y". -/

/-- Insert `x` before the first element it is strictly less than; elements
whose key ties with `x` that are already in place stay before it, which is
exactly Python's stability. -/
def insertStable (lt : α → α → Bool) (x : α) : List α → List α
  | [] => [x]
  | y :: ys => if lt y x then y :: insertStable lt x ys else x :: y :: ys

/-- Stable sort by the strict comparison `lt` (Python `list.sort`). -/
def sortByKey (lt : α → α → Bool) : List α → List α
  | [] => []
  | x :: xs => insertStable lt x (sortByKey lt xs)

theorem insertStable_perm (lt : α → α → Bool) (x : α) (l : List α) :
    (insertStable lt x l).Perm (x :: l) := by
  induction l with
  | nil => simp [insertStable]
  | cons y ys ih =>
    simp only [insertStable]
    split
    · exact (ih.cons y).trans (List.Perm.swap x y ys)
    · exact List.Perm.refl _

theorem sortByKey_perm (lt : α → α → Bool) (l : List α) :
    (sortByKey lt l).Perm l := by
  induction l with
  | nil => exact List.Perm.refl _
  | cons x xs ih =>
    exact (insertStable_perm lt x (sortByKey lt xs)).trans (ih.cons x)

theorem sortByKey_length (lt : α → α → Bool) (l : List α) :
    (sortByKey lt l).length = l.length :=
  (sortByKey_perm lt l).length_eq

theorem mem_of_mem_sortByKey {lt : α → α → Bool} {l : List α} {a : α}
    (h : a ∈ sortByKey lt l) : a ∈ l :=
  (sortByKey_perm lt l).mem_iff.mp h

/-! ## Data model (`src/tockerdui/model.py`) -/

/-- `model.ContainerInfo`. -/
structure ContainerInfo where
  id : String
  short_id : String
  name : String
  status : String
  image : String
  project : String := "standalone"
  cpu_percent : String := "--"
  ram_usage : String := "--"
  selected : Bool := false
deriving DecidableEq, Repr, Inhabited

/-- `model.ImageInfo`. -/
structure ImageInfo where
  id : String
  short_id : String
  tags : List String
  size_mb : ℚ
  created : String
  selected : Bool := false
deriving DecidableEq, Repr, Inhabited

/-- `model.VolumeInfo`. -/
structure VolumeInfo where
  name : String
  driver : String
  mountpoint : String
  selected : Bool := false
deriving DecidableEq, Repr, Inhabited

/-- `model.NetworkInfo`. -/
structure NetworkInfo where
  id : String
  name : String
  driver : String
  subnet : String
  selected : Bool := false
deriving DecidableEq, Repr, Inhabited

/-- `model.ComposeInfo`. -/
structure ComposeInfo where
  name : String
  config_files : String
  status : String
  selected : Bool := false
deriving DecidableEq, Repr, Inhabited

/-- `model.AppState` together with `StateManager._version` (the version
counter lives next to the state under the same lock). -/
structure AppState where
  containers : List ContainerInfo := []
  images : List ImageInfo := []
  volumes : List VolumeInfo := []
  networks : List NetworkInfo := []
  composes : List ComposeInfo := []
  selected_tab : String := "containers"
  selected_index : ℕ := 0
  scroll_offset : ℕ := 0
  logs : List String := []
  message : String := ""
  filter_text : String := ""
  is_filtering : Bool := false
  sort_mode : String := "name"
  update_available : Bool := false
  focused_pane : String := "list"
  logs_scroll_offset : ℕ := 0
  self_usage : String := ""
  last_error : String := ""
  error_timestamp : ℚ := 0
  bulk_select_mode : Bool := false
  version : ℕ := 0
deriving DecidableEq, Repr, Inhabited

/-- The freshly constructed state of `StateManager.__init__` (all dataclass
defaults, version `0`). -/
def initState : AppState := {}

/-! ## The filtered projection (`StateManager._get_filtered_list_unlocked`) -/

/-- Numeric value of a digit string (used by the cpu sort key). -/
def digitsToNat (cs : List Char) : ℕ :=
  cs.foldl (fun a c => a * 10 + (c.toNat - '0'.toNat)) 0

/-- Decimal parsing for `float(...)` as applied to the `"12.3%"`-shaped
strings the stats formatter produces: optional sign, digits, optional
fraction.  Returns `none` where Python `float` raises (which the source
turns into `-1.0` via its `except` clause). -/
def parseDecimal : List Char → Option ℚ
  | [] => none
  | '-' :: rest => (parseDecimal rest).map (fun q => -q)
  | '+' :: rest => parseDecimal rest
  | cs =>
    let ip := cs.takeWhile Char.isDigit
    let r1 := cs.dropWhile Char.isDigit
    match r1 with
    | [] => if ip.isEmpty then none else some (digitsToNat ip)
    | '.' :: r2 =>
      let fp := r2.takeWhile Char.isDigit
      let r3 := r2.dropWhile Char.isDigit
      if r3.isEmpty then
        if ip.isEmpty && fp.isEmpty then none
        else some (digitsToNat ip + mkRat (digitsToNat fp) (10 ^ fp.length))
      else none
    | _ => none

/-- The cpu sort key: `float(x.cpu_percent.strip('%'))`, `-1.0` when the
conversion raises. -/
def cpuSortKey (x : ContainerInfo) : ℚ :=
  (parseDecimal (pyStrip '%' x.cpu_percent.data)).getD (-1)

/-- One element of the heterogeneous list the Python projection works on. -/
inductive Item where
  | container (c : ContainerInfo)
  | image (i : ImageInfo)
  | volume (v : VolumeInfo)
  | network (n : NetworkInfo)
  | compose (p : ComposeInfo)
deriving DecidableEq, Repr

/-- Python `hasattr(item, "name")`: every model class except `ImageInfo`
has a `name` field. -/
def Item.hasNameAttr : Item → Bool
  | .image _ => false
  | _ => true

/-- Python `hasattr(item, "id")`: `ContainerInfo`, `ImageInfo` and
`NetworkInfo` have an `id` field. -/
def Item.hasIdAttr : Item → Bool
  | .container _ => true
  | .image _ => true
  | .network _ => true
  | _ => false

/-- The `name` attribute (`""` for the one class without it; never read
there, because the projection lists are homogeneous per tab). -/
def Item.nameKey : Item → String
  | .container c => c.name
  | .image _ => ""
  | .volume v => v.name
  | .network n => n.name
  | .compose p => p.name

/-- The `id` attribute (`""` where absent, never read there). -/
def Item.idKey : Item → String
  | .container c => c.id
  | .image i => i.id
  | .network n => n.id
  | _ => ""

/-- The `status` attribute of a container (sort key of the status mode). -/
def Item.statusKey : Item → String
  | .container c => c.status
  | _ => ""

/-- The container cpu key lifted to items. -/
def Item.cpuKey : Item → ℚ
  | .container c => cpuSortKey c
  | _ => -1

/-- The raw per-tab item list (`items = list(self._state...)`). -/
def rawItems (s : AppState) (tab : String) : List Item :=
  if tab = "containers" then s.containers.map Item.container
  else if tab = "images" then s.images.map Item.image
  else if tab = "volumes" then s.volumes.map Item.volume
  else if tab = "networks" then s.networks.map Item.network
  else if tab = "compose" then s.composes.map Item.compose
  else []

/-- The sorting step of `_get_filtered_list_unlocked`: containers sort by
the active sort mode (`cpu` descending, `reverse=True`); the other tabs
sort by `name` when the items have one, else by `id` (the `hasattr`
dispatch on `items[0]`). -/
def sortStep (tab sm : String) (items : List Item) : List Item :=
  if tab = "containers" then
    if sm = "name" then sortByKey (fun a b => strLtB a.nameKey b.nameKey) items
    else if sm = "status" then sortByKey (fun a b => strLtB a.statusKey b.statusKey) items
    else if sm = "cpu" then sortByKey (fun a b => decide (b.cpuKey < a.cpuKey)) items
    else items
  else
    match items.head? with
    | none => items
    | some h =>
      if h.hasNameAttr then sortByKey (fun a b => strLtB a.nameKey b.nameKey) items
      else if h.hasIdAttr then sortByKey (fun a b => strLtB a.idKey b.idKey) items
      else items

/-- The per-tab filter match of `_get_filtered_list_unlocked` (`ft` is the
already lowercased filter text). -/
def matchesFilter (tab : String) (ft : List Char) (i : Item) : Bool :=
  if tab = "containers" then
    containsSub (pyLower i.nameKey) ft || containsSub (pyLower (match i with
      | .container c => c.image
      | _ => "")) ft
  else if tab = "images" then
    match i with
    | .image im =>
      containsSub (pyLower im.short_id) ft || im.tags.any (fun t => containsSub (pyLower t) ft)
    | _ => false
  else if tab = "volumes" then containsSub (pyLower i.nameKey) ft
  else if tab = "networks" then containsSub (pyLower i.nameKey) ft
  else if tab = "compose" then containsSub (pyLower i.nameKey) ft
  else false

/-- Body of `_get_filtered_list_unlocked` after the raw list is drawn from
the state: early return on empty, sort, then filter unless the filter text
is empty. -/
def filterCore (tab sm ftext : String) (items : List Item) : List Item :=
  if items.isEmpty then []
  else
    let sorted := sortStep tab sm items
    if ftext = "" then sorted
    else sorted.filter (matchesFilter tab (pyLower ftext))

/-- `StateManager._get_filtered_list_unlocked(tab)`. -/
def getFilteredList (s : AppState) (tab : String) : List Item :=
  filterCore tab s.sort_mode s.filter_text (rawItems s tab)

/-! ## Mutators (`StateManager` methods) -/

/-- Lookup in the dict `{key(o): o for o in l}`: Python keeps the binding
of the *last* occurrence of a key, which a left fold reproduces. -/
def lookupBy (key : α → String) (l : List α) (k : String) : Option α :=
  l.foldl (fun acc o => if key o = k then some o else acc) none

/-- The merge inside `update_containers`: each incoming container whose id
was already present receives the old `cpu_percent`, `ram_usage` and
`selected`. -/
def mergeContainers (old new : List ContainerInfo) : List ContainerInfo :=
  new.map fun c =>
    match lookupBy ContainerInfo.id old c.id with
    | some o => { c with cpu_percent := o.cpu_percent, ram_usage := o.ram_usage,
                         selected := o.selected }
    | none => c

/-- The merge inside `update_images` (selection only, keyed by id). -/
def mergeImages (old new : List ImageInfo) : List ImageInfo :=
  new.map fun i =>
    match lookupBy ImageInfo.id old i.id with
    | some o => { i with selected := o.selected }
    | none => i

/-- The merge inside `update_volumes` (selection only, keyed by name). -/
def mergeVolumes (old new : List VolumeInfo) : List VolumeInfo :=
  new.map fun v =>
    match lookupBy VolumeInfo.name old v.name with
    | some o => { v with selected := o.selected }
    | none => v

/-- The merge inside `update_networks` (selection only, keyed by id). -/
def mergeNetworks (old new : List NetworkInfo) : List NetworkInfo :=
  new.map fun n =>
    match lookupBy NetworkInfo.id old n.id with
    | some o => { n with selected := o.selected }
    | none => n

/-- The merge inside `update_composes` (selection only, keyed by name). -/
def mergeComposes (old new : List ComposeInfo) : List ComposeInfo :=
  new.map fun p =>
    match lookupBy ComposeInfo.name old p.name with
    | some o => { p with selected := o.selected }
    | none => p

/-- `StateManager.update_containers`. -/
def updateContainers (s : AppState) (cs : List ContainerInfo) : AppState :=
  { s with containers := mergeContainers s.containers cs, version := s.version + 1 }

/-- `StateManager.update_images`. -/
def updateImages (s : AppState) (is : List ImageInfo) : AppState :=
  { s with images := mergeImages s.images is, version := s.version + 1 }

/-- `StateManager.update_volumes`. -/
def updateVolumes (s : AppState) (vs : List VolumeInfo) : AppState :=
  { s with volumes := mergeVolumes s.volumes vs, version := s.version + 1 }

/-- `StateManager.update_networks`. -/
def updateNetworks (s : AppState) (ns : List NetworkInfo) : AppState :=
  { s with networks := mergeNetworks s.networks ns, version := s.version + 1 }

/-- `StateManager.update_composes`. -/
def updateComposes (s : AppState) (ps : List ComposeInfo) : AppState :=
  { s with composes := mergeComposes s.composes ps, version := s.version + 1 }

/-- `StateManager.set_filter_text`: store the text, bump the version, then
clamp the selected index (`max(0, len-1)` is `len - 1` in `ℕ`). -/
def setFilterText (s : AppState) (text : String) : AppState :=
  let s1 : AppState := { s with filter_text := text, version := s.version + 1 }
  let L := (getFilteredList s1 s1.selected_tab).length
  if s1.selected_index ≥ L then { s1 with selected_index := L - 1 } else s1

/-- `StateManager.move_selection`.  The new index is clamped in `ℤ` exactly
as `max(0, min(idx + delta, len - 1))`; `if page_height:` is Python
truthiness, so `None` and `0` both skip the scroll adjustment; inside the
guarded branch `idx - page_height + 1` is non-negative, written
`idx + 1 - ph` in `ℕ`.  The version is bumped twice when the index
changed, not at all otherwise. -/
def moveSelection (s : AppState) (delta : ℤ) (page_height : Option ℕ) : AppState :=
  let L := (getFilteredList s s.selected_tab).length
  if 0 < L then
    let newIdx : ℕ := (max 0 (min ((s.selected_index : ℤ) + delta) ((L : ℤ) - 1))).toNat
    if newIdx ≠ s.selected_index then
      let s1 : AppState := { s with selected_index := newIdx, version := s.version + 1 }
      let s2 : AppState :=
        if s1.selected_tab = "containers" then
          { s1 with logs := ["Loading..."], logs_scroll_offset := 999999 }
        else s1
      let s3 : AppState :=
        match page_height with
        | some ph =>
          if ph ≠ 0 then
            if s2.selected_index < s2.scroll_offset then
              { s2 with scroll_offset := s2.selected_index }
            else if s2.selected_index ≥ s2.scroll_offset + ph then
              { s2 with scroll_offset := s2.selected_index + 1 - ph }
            else s2
          else s2
        | none => s2
      { s3 with version := s3.version + 1 }
    else s
  else { s with selected_index := 0 }

/-- A state with the version counter blanked: two states are observably
equal when they agree on everything but the version. -/
def stripVersion (s : AppState) : AppState := { s with version := 0 }

/-! ## Merge lookup lemmas (claim C1) -/

theorem lookupBy_foldl_none (key : α → String) (l : List α) (k : String)
    (init : Option α) (h : ∀ x ∈ l, key x ≠ k) :
    l.foldl (fun acc o => if key o = k then some o else acc) init = init := by
  induction l generalizing init with
  | nil => rfl
  | cons a as ih =>
    have ha : key a ≠ k := h a (List.mem_cons_self a as)
    simp only [List.foldl_cons, if_neg ha]
    exact ih init fun x hx => h x (List.mem_cons_of_mem a hx)

theorem lookupBy_self (key : α → String) {l : List α} {o : α}
    (hnd : (l.map key).Nodup) (ho : o ∈ l) :
    lookupBy key l (key o) = some o := by
  induction l with
  | nil => cases ho
  | cons a as ih =>
    have hnd' : (as.map key).Nodup := (List.nodup_cons.mp hnd).2
    have hka : key a ∉ as.map key := (List.nodup_cons.mp hnd).1
    rcases List.mem_cons.mp ho with rfl | hmem
    · show as.foldl _ (if key o = key o then some o else none) = some o
      rw [if_pos rfl]
      exact lookupBy_foldl_none key as (key o) (some o)
        fun x hx hkx => hka (hkx ▸ List.mem_map_of_mem key hx)
    · have hne : key a ≠ key o := by
        intro he
        exact hka (he ▸ List.mem_map_of_mem key hmem)
      show as.foldl _ (if key a = key o then some a else none) = some o
      rw [if_neg hne]
      exact ih hnd' hmem

theorem mergeContainers_mem_eq {old new : List ContainerInfo} {c oc : ContainerInfo}
    (hnd : (old.map ContainerInfo.id).Nodup) (hc : c ∈ mergeContainers old new)
    (hoc : oc ∈ old) (hk : c.id = oc.id) :
    c.cpu_percent = oc.cpu_percent ∧ c.ram_usage = oc.ram_usage ∧
      c.selected = oc.selected := by
  obtain ⟨c0, _, hceq⟩ := List.mem_map.mp hc
  have hid : c0.id = oc.id := by
    rw [← hk, ← hceq]
    cases h' : lookupBy ContainerInfo.id old c0.id <;> simp [h']
  have hlook : lookupBy ContainerInfo.id old c0.id = some oc := by
    rw [hid]; exact lookupBy_self _ hnd hoc
  rw [← hceq, hlook]
  simp

theorem mergeImages_mem_eq {old new : List ImageInfo} {i oi : ImageInfo}
    (hnd : (old.map ImageInfo.id).Nodup) (hi : i ∈ mergeImages old new)
    (hoi : oi ∈ old) (hk : i.id = oi.id) : i.selected = oi.selected := by
  obtain ⟨i0, _, hieq⟩ := List.mem_map.mp hi
  have hid : i0.id = oi.id := by
    rw [← hk, ← hieq]
    cases h' : lookupBy ImageInfo.id old i0.id <;> simp [h']
  have hlook : lookupBy ImageInfo.id old i0.id = some oi := by
    rw [hid]; exact lookupBy_self _ hnd hoi
  rw [← hieq, hlook]

theorem mergeVolumes_mem_eq {old new : List VolumeInfo} {v ov : VolumeInfo}
    (hnd : (old.map VolumeInfo.name).Nodup) (hv : v ∈ mergeVolumes old new)
    (hov : ov ∈ old) (hk : v.name = ov.name) : v.selected = ov.selected := by
  obtain ⟨v0, _, hveq⟩ := List.mem_map.mp hv
  have hid : v0.name = ov.name := by
    rw [← hk, ← hveq]
    cases h' : lookupBy VolumeInfo.name old v0.name <;> simp [h']
  have hlook : lookupBy VolumeInfo.name old v0.name = some ov := by
    rw [hid]; exact lookupBy_self _ hnd hov
  rw [← hveq, hlook]

theorem mergeNetworks_mem_eq {old new : List NetworkInfo} {n og : NetworkInfo}
    (hnd : (old.map NetworkInfo.id).Nodup) (hn : n ∈ mergeNetworks old new)
    (hog : og ∈ old) (hk : n.id = og.id) : n.selected = og.selected := by
  obtain ⟨n0, _, hneq⟩ := List.mem_map.mp hn
  have hid : n0.id = og.id := by
    rw [← hk, ← hneq]
    cases h' : lookupBy NetworkInfo.id old n0.id <;> simp [h']
  have hlook : lookupBy NetworkInfo.id old n0.id = some og := by
    rw [hid]; exact lookupBy_self _ hnd hog
  rw [← hneq, hlook]

theorem mergeComposes_mem_eq {old new : List ComposeInfo} {p oq : ComposeInfo}
    (hnd : (old.map ComposeInfo.name).Nodup) (hp : p ∈ mergeComposes old new)
    (hoq : oq ∈ old) (hk : p.name = oq.name) : p.selected = oq.selected := by
  obtain ⟨p0, _, hpeq⟩ := List.mem_map.mp hp
  have hid : p0.name = oq.name := by
    rw [← hk, ← hpeq]
    cases h' : lookupBy ComposeInfo.name old p0.name <;> simp [h']
  have hlook : lookupBy ComposeInfo.name old p0.name = some oq := by
    rw [hid]; exact lookupBy_self _ hnd hoq
  rw [← hpeq, hlook]

/-- C1: every collection-replace call (`update_containers`, `update_images`,
`update_volumes`, `update_networks`, `update_composes`) merges the incoming
list with the previous one on the identity key (id, or name for volumes and
composes): an item whose identity was already present keeps the previous
`cpu_percent`, `ram_usage` and `selected` (containers), respectively the
previous `selected` (other kinds).  The per-kind identity keys are assumed
duplicate-free in the prior state, matching Python's dict build. -/
theorem collection_update_preserves_unfetched_fields
    (s : AppState)
    (newC : List ContainerInfo) (newI : List ImageInfo) (newV : List VolumeInfo)
    (newN : List NetworkInfo) (newP : List ComposeInfo)
    (c : ContainerInfo) (i : ImageInfo) (v : VolumeInfo) (n : NetworkInfo) (p : ComposeInfo)
    (oc : ContainerInfo) (oi : ImageInfo) (ov : VolumeInfo) (og : NetworkInfo) (oq : ComposeInfo)
    (hcN : (s.containers.map ContainerInfo.id).Nodup)
    (hiN : (s.images.map ImageInfo.id).Nodup)
    (hvN : (s.volumes.map VolumeInfo.name).Nodup)
    (hnN : (s.networks.map NetworkInfo.id).Nodup)
    (hpN : (s.composes.map ComposeInfo.name).Nodup)
    (hc : c ∈ (updateContainers s newC).containers) (hoc : oc ∈ s.containers)
    (hkc : c.id = oc.id)
    (hi : i ∈ (updateImages s newI).images) (hoi : oi ∈ s.images) (hki : i.id = oi.id)
    (hv : v ∈ (updateVolumes s newV).volumes) (hov : ov ∈ s.volumes) (hkv : v.name = ov.name)
    (hn : n ∈ (updateNetworks s newN).networks) (hog : og ∈ s.networks) (hkn : n.id = og.id)
    (hp : p ∈ (updateComposes s newP).composes) (hoq : oq ∈ s.composes)
    (hkp : p.name = oq.name) :
    (c.cpu_percent = oc.cpu_percent ∧ c.ram_usage = oc.ram_usage ∧ c.selected = oc.selected)
    ∧ i.selected = oi.selected ∧ v.selected = ov.selected ∧ n.selected = og.selected
    ∧ p.selected = oq.selected :=
  ⟨mergeContainers_mem_eq hcN hc hoc hkc,
   mergeImages_mem_eq hiN hi hoi hki,
   mergeVolumes_mem_eq hvN hv hov hkv,
   mergeNetworks_mem_eq hnN hn hog hkn,
   mergeComposes_mem_eq hpN hp hoq hkp⟩

theorem collection_update_preserves_unfetched_fields_witness :
    ((⟨"c1", "c1s", "web", "exited", "nginx", "standalone", "9.0%", "5MB", true⟩ :
        ContainerInfo).cpu_percent =
      (⟨"c1", "c1s", "web", "running", "nginx", "standalone", "9.0%", "5MB", true⟩ :
        ContainerInfo).cpu_percent ∧
     (⟨"c1", "c1s", "web", "exited", "nginx", "standalone", "9.0%", "5MB", true⟩ :
        ContainerInfo).ram_usage =
      (⟨"c1", "c1s", "web", "running", "nginx", "standalone", "9.0%", "5MB", true⟩ :
        ContainerInfo).ram_usage ∧
     (⟨"c1", "c1s", "web", "exited", "nginx", "standalone", "9.0%", "5MB", true⟩ :
        ContainerInfo).selected =
      (⟨"c1", "c1s", "web", "running", "nginx", "standalone", "9.0%", "5MB", true⟩ :
        ContainerInfo).selected)
    ∧ (⟨"i1", "i1s", ["t"], 0, "2024", true⟩ : ImageInfo).selected =
        (⟨"i1", "i1s", ["t0"], 7, "2023", true⟩ : ImageInfo).selected
    ∧ (⟨"v1", "local", "/mnt", true⟩ : VolumeInfo).selected =
        (⟨"v1", "local", "/old", true⟩ : VolumeInfo).selected
    ∧ (⟨"n1", "net", "bridge", "10.0.0.0/16", true⟩ : NetworkInfo).selected =
        (⟨"n1", "net", "bridge", "10.9.0.0/16", true⟩ : NetworkInfo).selected
    ∧ (⟨"p1", "dc.yml", "exited", true⟩ : ComposeInfo).selected =
        (⟨"p1", "dc.yml", "running", true⟩ : ComposeInfo).selected :=
  collection_update_preserves_unfetched_fields
    { containers := [⟨"c1", "c1s", "web", "running", "nginx", "standalone", "9.0%", "5MB", true⟩],
      images := [⟨"i1", "i1s", ["t0"], 7, "2023", true⟩],
      volumes := [⟨"v1", "local", "/old", true⟩],
      networks := [⟨"n1", "net", "bridge", "10.9.0.0/16", true⟩],
      composes := [⟨"p1", "dc.yml", "running", true⟩] }
    [⟨"c1", "c1s", "web", "exited", "nginx", "standalone", "--", "--", false⟩]
    [⟨"i1", "i1s", ["t"], 0, "2024", false⟩]
    [⟨"v1", "local", "/mnt", false⟩]
    [⟨"n1", "net", "bridge", "10.0.0.0/16", false⟩]
    [⟨"p1", "dc.yml", "exited", false⟩]
    ⟨"c1", "c1s", "web", "exited", "nginx", "standalone", "9.0%", "5MB", true⟩
    ⟨"i1", "i1s", ["t"], 0, "2024", true⟩
    ⟨"v1", "local", "/mnt", true⟩
    ⟨"n1", "net", "bridge", "10.0.0.0/16", true⟩
    ⟨"p1", "dc.yml", "exited", true⟩
    ⟨"c1", "c1s", "web", "running", "nginx", "standalone", "9.0%", "5MB", true⟩
    ⟨"i1", "i1s", ["t0"], 7, "2023", true⟩
    ⟨"v1", "local", "/old", true⟩
    ⟨"n1", "net", "bridge", "10.9.0.0/16", true⟩
    ⟨"p1", "dc.yml", "running", true⟩
    (by decide) (by decide) (by decide) (by decide) (by decide)
    (by decide) (by decide) (by decide)
    (by decide) (by decide) (by decide)
    (by decide) (by decide) (by decide)
    (by decide) (by decide) (by decide)
    (by decide) (by decide) (by decide)

/-! ## Version counter (claim C2) -/

theorem moveSelection_version_cases (s : AppState) (d : ℤ) (p : Option ℕ) :
    (moveSelection s d p).version = s.version ∨
      ((moveSelection s d p).version = s.version + 2 ∧
        (moveSelection s d p).selected_index ≠ s.selected_index) := by
  simp only [moveSelection]
  split
  · split
    · next hne =>
      right
      constructor
      · repeat' split
        all_goals rfl
      · repeat' split
        all_goals simpa using hne
    · left; rfl
  · left; rfl

theorem moveSelection_noop_at_zero (s : AppState) (p : Option ℕ)
    (h0 : s.selected_index = 0) :
    (moveSelection s (-1) p).version = s.version := by
  simp only [moveSelection]
  split
  · next hL =>
    have hidx : (max 0 (min ((s.selected_index : ℤ) + (-1))
        (((getFilteredList s s.selected_tab).length : ℤ) - 1))).toNat = s.selected_index := by
      omega
    simp [hidx]
  · rfl

/-- C2 (amended): the version counter never decreases under any modeled
mutator; `set_filter_text` and the five collection replaces increment it by
exactly 1 on every call, even when nothing observable changes;
`move_selection` changes the version only when it actually changes the
selected index (so the no-op move at index 0 by −1 leaves it unchanged),
and a `move_selection` on an empty projection leaves the version unchanged
even though it resets a stale index to 0. -/
theorem version_counter_behavior (s s0 : AppState) (t : String)
    (lC : List ContainerInfo) (lI : List ImageInfo) (lV : List VolumeInfo)
    (lN : List NetworkInfo) (lP : List ComposeInfo) (d : ℤ) (p : Option ℕ)
    (h0 : s0.selected_index = 0) :
    (setFilterText s t).version = s.version + 1
    ∧ (updateContainers s lC).version = s.version + 1
    ∧ (updateImages s lI).version = s.version + 1
    ∧ (updateVolumes s lV).version = s.version + 1
    ∧ (updateNetworks s lN).version = s.version + 1
    ∧ (updateComposes s lP).version = s.version + 1
    ∧ s.version ≤ (moveSelection s d p).version
    ∧ ((moveSelection s d p).version ≠ s.version →
        (moveSelection s d p).selected_index ≠ s.selected_index)
    ∧ (moveSelection s0 (-1) p).version = s0.version
    ∧ ((getFilteredList s s.selected_tab).length = 0 →
        moveSelection s d p = { s with selected_index := 0 }) := by
  refine ⟨?_, rfl, rfl, rfl, rfl, rfl, ?_, ?_, moveSelection_noop_at_zero s0 p h0, ?_⟩
  · simp only [setFilterText]
    split <;> rfl
  · rcases moveSelection_version_cases s d p with h | ⟨h, _⟩ <;> omega
  · intro hv
    rcases moveSelection_version_cases s d p with h | ⟨_, h⟩
    · exact absurd h hv
    · exact h
  · intro hL
    simp only [moveSelection, hL]
    rfl

theorem version_counter_behavior_witness :
    (setFilterText initState "").version = initState.version + 1
    ∧ (updateContainers initState []).version = initState.version + 1
    ∧ (updateImages initState []).version = initState.version + 1
    ∧ (updateVolumes initState []).version = initState.version + 1
    ∧ (updateNetworks initState []).version = initState.version + 1
    ∧ (updateComposes initState []).version = initState.version + 1
    ∧ initState.version ≤ (moveSelection initState (-1) (some 5)).version
    ∧ ((moveSelection initState (-1) (some 5)).version ≠ initState.version →
        (moveSelection initState (-1) (some 5)).selected_index ≠ initState.selected_index)
    ∧ (moveSelection initState (-1) (some 5)).version = initState.version
    ∧ ((getFilteredList initState initState.selected_tab).length = 0 →
        moveSelection initState (-1) (some 5) = { initState with selected_index := 0 }) :=
  version_counter_behavior initState initState "" [] [] [] [] [] (-1) (some 5) (by decide)

/-- C2 is refuted as stated: `set_filter_text` with the text already in the
state is observably a no-op, yet it still increments the version (from 0 to
1 on the fresh state). -/
theorem version_counter_noop_set_filter_bumps :
    stripVersion (setFilterText initState "") = stripVersion initState
    ∧ initState.filter_text = ""
    ∧ (setFilterText initState "").version = initState.version + 1 := by
  refine ⟨by decide, rfl, rfl⟩

/-! ## Projection facts (claims C4, C5, C8) -/

theorem getFilteredList_congr {s₁ s₂ : AppState} (tab : String)
    (hc : s₁.containers = s₂.containers) (hi : s₁.images = s₂.images)
    (hv : s₁.volumes = s₂.volumes) (hn : s₁.networks = s₂.networks)
    (hp : s₁.composes = s₂.composes) (hs : s₁.sort_mode = s₂.sort_mode)
    (hf : s₁.filter_text = s₂.filter_text) :
    getFilteredList s₁ tab = getFilteredList s₂ tab := by
  unfold getFilteredList rawItems
  rw [hc, hi, hv, hn, hp, hs, hf]

theorem setFilterText_fields (s : AppState) (t : String) :
    (setFilterText s t).containers = s.containers
    ∧ (setFilterText s t).images = s.images
    ∧ (setFilterText s t).volumes = s.volumes
    ∧ (setFilterText s t).networks = s.networks
    ∧ (setFilterText s t).composes = s.composes
    ∧ (setFilterText s t).sort_mode = s.sort_mode
    ∧ (setFilterText s t).filter_text = t
    ∧ (setFilterText s t).selected_tab = s.selected_tab := by
  simp only [setFilterText]
  split <;> exact ⟨rfl, rfl, rfl, rfl, rfl, rfl, rfl, rfl⟩

theorem moveSelection_fields (s : AppState) (d : ℤ) (p : Option ℕ) :
    (moveSelection s d p).containers = s.containers
    ∧ (moveSelection s d p).images = s.images
    ∧ (moveSelection s d p).volumes = s.volumes
    ∧ (moveSelection s d p).networks = s.networks
    ∧ (moveSelection s d p).composes = s.composes
    ∧ (moveSelection s d p).sort_mode = s.sort_mode
    ∧ (moveSelection s d p).filter_text = s.filter_text
    ∧ (moveSelection s d p).selected_tab = s.selected_tab := by
  simp only [moveSelection]
  repeat' split
  all_goals exact ⟨rfl, rfl, rfl, rfl, rfl, rfl, rfl, rfl⟩

theorem getFilteredList_setFilterText (s : AppState) (t : String) (tab : String) :
    getFilteredList (setFilterText s t) tab =
      getFilteredList { s with filter_text := t } tab := by
  obtain ⟨h1, h2, h3, h4, h5, h6, h7, _⟩ := setFilterText_fields s t
  exact getFilteredList_congr tab h1 h2 h3 h4 h5 h6 h7

theorem getFilteredList_moveSelection (s : AppState) (d : ℤ) (p : Option ℕ) (tab : String) :
    getFilteredList (moveSelection s d p) tab = getFilteredList s tab := by
  obtain ⟨h1, h2, h3, h4, h5, h6, h7, _⟩ := moveSelection_fields s d p
  exact getFilteredList_congr tab h1 h2 h3 h4 h5 h6 h7

theorem sortStep_perm (tab sm : String) (items : List Item) :
    (sortStep tab sm items).Perm items := by
  unfold sortStep
  repeat' split
  all_goals first
    | exact sortByKey_perm _ _
    | exact List.Perm.refl _

theorem filterCore_empty_filter_perm (tab sm : String) (items : List Item) :
    (filterCore tab sm "" items).Perm items := by
  unfold filterCore
  split
  · next h => rw [List.isEmpty_iff.mp h]
  · exact sortStep_perm tab sm items

theorem setFilterText_index_lt (s : AppState) (t : String)
    (h : (getFilteredList (setFilterText s t) (setFilterText s t).selected_tab).length ≠ 0) :
    (setFilterText s t).selected_index <
      (getFilteredList (setFilterText s t) (setFilterText s t).selected_tab).length := by
  have key : setFilterText s t =
      (if ({ s with filter_text := t, version := s.version + 1 } : AppState).selected_index ≥
            (getFilteredList { s with filter_text := t, version := s.version + 1 }
              ({ s with filter_text := t, version := s.version + 1 } : AppState).selected_tab).length
        then { ({ s with filter_text := t, version := s.version + 1 } : AppState) with
                selected_index :=
                  (getFilteredList { s with filter_text := t, version := s.version + 1 }
                    ({ s with filter_text := t, version := s.version + 1 } :
                      AppState).selected_tab).length - 1 }
        else { s with filter_text := t, version := s.version + 1 }) := rfl
  rw [key] at h ⊢
  by_cases hc : ({ s with filter_text := t, version := s.version + 1 } : AppState).selected_index ≥
      (getFilteredList { s with filter_text := t, version := s.version + 1 }
        ({ s with filter_text := t, version := s.version + 1 } : AppState).selected_tab).length
  · rw [if_pos hc] at h ⊢
    have h' : (getFilteredList { s with filter_text := t, version := s.version + 1 }
        ({ s with filter_text := t, version := s.version + 1 } : AppState).selected_tab).length
        ≠ 0 := h
    show (getFilteredList { s with filter_text := t, version := s.version + 1 }
        ({ s with filter_text := t, version := s.version + 1 } : AppState).selected_tab).length - 1
      < (getFilteredList { s with filter_text := t, version := s.version + 1 }
        ({ s with filter_text := t, version := s.version + 1 } : AppState).selected_tab).length
    omega
  · rw [if_neg hc] at h ⊢
    omega

theorem moveSelection_index_lt (s : AppState) (d : ℤ) (p : Option ℕ)
    (h : 0 < (getFilteredList s s.selected_tab).length) :
    (moveSelection s d p).selected_index < (getFilteredList s s.selected_tab).length := by
  have hb : (max 0 (min ((s.selected_index : ℤ) + d)
      (((getFilteredList s s.selected_tab).length : ℤ) - 1))).toNat <
      (getFilteredList s s.selected_tab).length := by
    have h1 : min ((s.selected_index : ℤ) + d)
        (((getFilteredList s s.selected_tab).length : ℤ) - 1) ≤
        ((getFilteredList s s.selected_tab).length : ℤ) - 1 := min_le_right _ _
    have h0 : (0 : ℤ) ≤ ((getFilteredList s s.selected_tab).length : ℤ) - 1 := by
      have : (1 : ℤ) ≤ ((getFilteredList s s.selected_tab).length : ℤ) := by exact_mod_cast h
      omega
    have h2 : max 0 (min ((s.selected_index : ℤ) + d)
        (((getFilteredList s s.selected_tab).length : ℤ) - 1)) ≤
        ((getFilteredList s s.selected_tab).length : ℤ) - 1 := max_le h0 h1
    omega
  simp only [moveSelection]
  rw [if_pos h]
  split
  · repeat' split
    all_goals simpa using hb
  · next hne => exact not_ne_iff.mp hne ▸ hb

/-- C4 (amended): the two mutators that re-clamp the selection —
`set_filter_text` and `move_selection` — always leave the selected index
inside the bounds of the current filtered projection of the active tab
whenever that projection is non-empty.  (A collection replace that shrinks
the projection does *not* re-clamp; see the counterexample.) -/
theorem selection_in_bounds_after_clamping_mutators (s : AppState) (t : String)
    (d : ℤ) (p : Option ℕ)
    (h1 : (getFilteredList (setFilterText s t) (setFilterText s t).selected_tab).length ≠ 0)
    (h2 : (getFilteredList (moveSelection s d p)
            (moveSelection s d p).selected_tab).length ≠ 0) :
    (setFilterText s t).selected_index <
      (getFilteredList (setFilterText s t) (setFilterText s t).selected_tab).length
    ∧ (moveSelection s d p).selected_index <
      (getFilteredList (moveSelection s d p) (moveSelection s d p).selected_tab).length := by
  have htab : (moveSelection s d p).selected_tab = s.selected_tab :=
    (moveSelection_fields s d p).2.2.2.2.2.2.2
  rw [htab, getFilteredList_moveSelection] at h2
  refine ⟨setFilterText_index_lt s t h1, ?_⟩
  rw [htab, getFilteredList_moveSelection]
  exact moveSelection_index_lt s d p (Nat.pos_of_ne_zero h2)

theorem selection_in_bounds_after_clamping_mutators_witness :
    (setFilterText
        { initState with
          containers := [⟨"a", "a", "alpha", "running", "img", "standalone", "--", "--", false⟩] }
        "").selected_index <
      (getFilteredList
        (setFilterText
          { initState with
            containers := [⟨"a", "a", "alpha", "running", "img", "standalone", "--", "--", false⟩] }
          "")
        (setFilterText
          { initState with
            containers := [⟨"a", "a", "alpha", "running", "img", "standalone", "--", "--", false⟩] }
          "").selected_tab).length
    ∧ (moveSelection
        { initState with
          containers := [⟨"a", "a", "alpha", "running", "img", "standalone", "--", "--", false⟩] }
        0 none).selected_index <
      (getFilteredList
        (moveSelection
          { initState with
            containers := [⟨"a", "a", "alpha", "running", "img", "standalone", "--", "--", false⟩] }
          0 none)
        (moveSelection
          { initState with
            containers := [⟨"a", "a", "alpha", "running", "img", "standalone", "--", "--", false⟩] }
          0 none).selected_tab).length :=
  selection_in_bounds_after_clamping_mutators
    { initState with
      containers := [⟨"a", "a", "alpha", "running", "img", "standalone", "--", "--", false⟩] }
    "" 0 none (by decide) (by decide)

/-- C4 is refuted as stated: replacing the containers with a shorter list
does not re-clamp the selected index, so after selecting index 1 of two
containers and then shrinking to one container the index 1 is out of
bounds of the (non-empty, length-1) filtered projection. -/
theorem selection_out_of_bounds_after_shrink :
    ¬ ((updateContainers
          (moveSelection
            (updateContainers initState
              [⟨"a", "a", "alpha", "running", "img", "standalone", "--", "--", false⟩,
               ⟨"b", "b", "beta", "running", "img", "standalone", "--", "--", false⟩])
            1 none)
          [⟨"a", "a", "alpha", "running", "img", "standalone", "--", "--", false⟩]).selected_index <
        (getFilteredList
          (updateContainers
            (moveSelection
              (updateContainers initState
                [⟨"a", "a", "alpha", "running", "img", "standalone", "--", "--", false⟩,
                 ⟨"b", "b", "beta", "running", "img", "standalone", "--", "--", false⟩])
              1 none)
            [⟨"a", "a", "alpha", "running", "img", "standalone", "--", "--", false⟩])
          (updateContainers
            (moveSelection
              (updateContainers initState
                [⟨"a", "a", "alpha", "running", "img", "standalone", "--", "--", false⟩,
                 ⟨"b", "b", "beta", "running", "img", "standalone", "--", "--", false⟩])
              1 none)
            [⟨"a", "a", "alpha", "running", "img", "standalone", "--", "--", false⟩]).selected_tab).length)
    ∧ (getFilteredList
        (updateContainers
          (moveSelection
            (updateContainers initState
              [⟨"a", "a", "alpha", "running", "img", "standalone", "--", "--", false⟩,
               ⟨"b", "b", "beta", "running", "img", "standalone", "--", "--", false⟩])
            1 none)
          [⟨"a", "a", "alpha", "running", "img", "standalone", "--", "--", false⟩])
        (updateContainers
          (moveSelection
            (updateContainers initState
              [⟨"a", "a", "alpha", "running", "img", "standalone", "--", "--", false⟩,
               ⟨"b", "b", "beta", "running", "img", "standalone", "--", "--", false⟩])
            1 none)
          [⟨"a", "a", "alpha", "running", "img", "standalone", "--", "--", false⟩]).selected_tab).length ≠ 0 := by
  constructor
  · decide
  · decide

/-! ## Clamp and scroll (claim C5) -/

/-- The clamped candidate index of `move_selection`:
`max(0, min(idx + delta, len - 1))`. -/
def newIdxOf (s : AppState) (d : ℤ) : ℕ :=
  (max 0 (min ((s.selected_index : ℤ) + d)
    (((getFilteredList s s.selected_tab).length : ℤ) - 1))).toNat

/-- Twenty containers in the default state: the scenario of the scroll
spec example. -/
def scrollDemoState : AppState :=
  { initState with containers :=
    [⟨"a01", "a01", "a01", "running", "img", "standalone", "--", "--", false⟩,
     ⟨"a02", "a02", "a02", "running", "img", "standalone", "--", "--", false⟩,
     ⟨"a03", "a03", "a03", "running", "img", "standalone", "--", "--", false⟩,
     ⟨"a04", "a04", "a04", "running", "img", "standalone", "--", "--", false⟩,
     ⟨"a05", "a05", "a05", "running", "img", "standalone", "--", "--", false⟩,
     ⟨"a06", "a06", "a06", "running", "img", "standalone", "--", "--", false⟩,
     ⟨"a07", "a07", "a07", "running", "img", "standalone", "--", "--", false⟩,
     ⟨"a08", "a08", "a08", "running", "img", "standalone", "--", "--", false⟩,
     ⟨"a09", "a09", "a09", "running", "img", "standalone", "--", "--", false⟩,
     ⟨"a10", "a10", "a10", "running", "img", "standalone", "--", "--", false⟩,
     ⟨"a11", "a11", "a11", "running", "img", "standalone", "--", "--", false⟩,
     ⟨"a12", "a12", "a12", "running", "img", "standalone", "--", "--", false⟩,
     ⟨"a13", "a13", "a13", "running", "img", "standalone", "--", "--", false⟩,
     ⟨"a14", "a14", "a14", "running", "img", "standalone", "--", "--", false⟩,
     ⟨"a15", "a15", "a15", "running", "img", "standalone", "--", "--", false⟩,
     ⟨"a16", "a16", "a16", "running", "img", "standalone", "--", "--", false⟩,
     ⟨"a17", "a17", "a17", "running", "img", "standalone", "--", "--", false⟩,
     ⟨"a18", "a18", "a18", "running", "img", "standalone", "--", "--", false⟩,
     ⟨"a19", "a19", "a19", "running", "img", "standalone", "--", "--", false⟩,
     ⟨"a20", "a20", "a20", "running", "img", "standalone", "--", "--", false⟩] }

theorem moveSelection_index_eq (s : AppState) (d : ℤ) (p : Option ℕ)
    (hL : (getFilteredList s s.selected_tab).length ≠ 0) :
    (moveSelection s d p).selected_index = newIdxOf s d := by
  simp only [moveSelection, newIdxOf]
  rw [if_pos (Nat.pos_of_ne_zero hL)]
  split
  · repeat' split
    all_goals rfl
  · next hne => exact (not_ne_iff.mp hne).symm

theorem moveSelection_noop_eq (s : AppState) (d : ℤ) (p : Option ℕ)
    (hL : (getFilteredList s s.selected_tab).length ≠ 0)
    (heq : newIdxOf s d = s.selected_index) :
    moveSelection s d p = s := by
  simp only [newIdxOf] at heq
  simp only [moveSelection]
  rw [if_pos (Nat.pos_of_ne_zero hL), if_neg (not_ne_iff.mpr heq)]

theorem moveSelection_scroll_rule (s : AppState) (d : ℤ) (ph : ℕ)
    (hL : (getFilteredList s s.selected_tab).length ≠ 0) (hph : ph ≠ 0)
    (hne : newIdxOf s d ≠ s.selected_index) :
    (newIdxOf s d < s.scroll_offset →
        (moveSelection s d (some ph)).scroll_offset = newIdxOf s d)
    ∧ (s.scroll_offset + ph ≤ newIdxOf s d →
        (moveSelection s d (some ph)).scroll_offset = newIdxOf s d + 1 - ph)
    ∧ (s.scroll_offset ≤ newIdxOf s d ∧ newIdxOf s d < s.scroll_offset + ph →
        (moveSelection s d (some ph)).scroll_offset = s.scroll_offset) := by
  simp only [newIdxOf] at hne ⊢
  simp only [moveSelection]
  rw [if_pos (Nat.pos_of_ne_zero hL), if_pos hne]
  generalize (max 0 (min ((s.selected_index : ℤ) + d)
    (((getFilteredList s s.selected_tab).length : ℤ) - 1))).toNat = N
  refine ⟨?_, ?_, ?_⟩ <;> intro hcond <;> repeat' split
  all_goals first
    | rfl
    | (dsimp only at *; omega)

/-- C5 (amended): with a non-empty projection, `move_selection` sets the
selected index to `max(0, min(idx+delta, len-1))`; when the clamped index
equals the current one the call is a no-op (in particular no scroll
adjustment happens even if the index lies outside the page); when it
differs and the supplied page height is non-zero (Python truthiness of
`if page_height:`), the scroll rule applies: below the offset the offset
becomes the new index, at or past `offset + pageHeight` it becomes
`newIndex - pageHeight + 1`, otherwise it is unchanged; the version
changes only if the index changed; and the 20-item page-height-5 scenario
(+2, +2, +1 from index 0) ends at index 5 with scroll offset 1. -/
theorem move_selection_clamp_scroll_version (s : AppState) (d : ℤ) (ph : ℕ)
    (hL : (getFilteredList s s.selected_tab).length ≠ 0) (hph : ph ≠ 0) :
    (moveSelection s d (some ph)).selected_index = newIdxOf s d
    ∧ (newIdxOf s d = s.selected_index → moveSelection s d (some ph) = s)
    ∧ (newIdxOf s d ≠ s.selected_index →
        (newIdxOf s d < s.scroll_offset →
          (moveSelection s d (some ph)).scroll_offset = newIdxOf s d)
        ∧ (s.scroll_offset + ph ≤ newIdxOf s d →
          (moveSelection s d (some ph)).scroll_offset = newIdxOf s d + 1 - ph)
        ∧ (s.scroll_offset ≤ newIdxOf s d ∧ newIdxOf s d < s.scroll_offset + ph →
          (moveSelection s d (some ph)).scroll_offset = s.scroll_offset))
    ∧ ((moveSelection s d (some ph)).version ≠ s.version →
        (moveSelection s d (some ph)).selected_index ≠ s.selected_index)
    ∧ (moveSelection (moveSelection (moveSelection scrollDemoState 2 (some 5)) 2 (some 5)) 1
        (some 5)).selected_index = 5
    ∧ (moveSelection (moveSelection (moveSelection scrollDemoState 2 (some 5)) 2 (some 5)) 1
        (some 5)).scroll_offset = 1 := by
  refine ⟨moveSelection_index_eq s d (some ph) hL, moveSelection_noop_eq s d (some ph) hL,
    moveSelection_scroll_rule s d ph hL hph, ?_, by decide, by decide⟩
  intro hv
  rcases moveSelection_version_cases s d (some ph) with h | ⟨_, h⟩
  · exact absurd h hv
  · exact h

theorem move_selection_clamp_scroll_version_witness :
    (moveSelection scrollDemoState 2 (some 5)).selected_index = newIdxOf scrollDemoState 2
    ∧ (newIdxOf scrollDemoState 2 = scrollDemoState.selected_index →
        moveSelection scrollDemoState 2 (some 5) = scrollDemoState)
    ∧ (newIdxOf scrollDemoState 2 ≠ scrollDemoState.selected_index →
        (newIdxOf scrollDemoState 2 < scrollDemoState.scroll_offset →
          (moveSelection scrollDemoState 2 (some 5)).scroll_offset = newIdxOf scrollDemoState 2)
        ∧ (scrollDemoState.scroll_offset + 5 ≤ newIdxOf scrollDemoState 2 →
          (moveSelection scrollDemoState 2 (some 5)).scroll_offset =
            newIdxOf scrollDemoState 2 + 1 - 5)
        ∧ (scrollDemoState.scroll_offset ≤ newIdxOf scrollDemoState 2 ∧
            newIdxOf scrollDemoState 2 < scrollDemoState.scroll_offset + 5 →
          (moveSelection scrollDemoState 2 (some 5)).scroll_offset =
            scrollDemoState.scroll_offset))
    ∧ ((moveSelection scrollDemoState 2 (some 5)).version ≠ scrollDemoState.version →
        (moveSelection scrollDemoState 2 (some 5)).selected_index ≠
          scrollDemoState.selected_index)
    ∧ (moveSelection (moveSelection (moveSelection scrollDemoState 2 (some 5)) 2 (some 5)) 1
        (some 5)).selected_index = 5
    ∧ (moveSelection (moveSelection (moveSelection scrollDemoState 2 (some 5)) 2 (some 5)) 1
        (some 5)).scroll_offset = 1 :=
  move_selection_clamp_scroll_version scrollDemoState 2 5 (by decide) (by decide)

/-- C5 is refuted as stated: the scroll rule does not fire on every call
with a supplied page height.  With page height 0 (falsy in Python) the new
index 1 satisfies `newIndex ≥ offset + P`, yet the offset stays 0 instead
of becoming `newIndex - P + 1 = 2`; and with page height 5 from a state
whose index 1 sits below scroll offset 3, a delta-0 move leaves the
clamped index unchanged, so the offset stays 3 instead of becoming the new
index 1. -/
theorem scroll_rule_skipped_cases :
    (getFilteredList
        ({ initState with containers :=
          [⟨"a", "a", "alpha", "running", "img", "standalone", "--", "--", false⟩,
           ⟨"b", "b", "beta", "running", "img", "standalone", "--", "--", false⟩] })
        "containers").length = 2
    ∧ (moveSelection
        { initState with containers :=
          [⟨"a", "a", "alpha", "running", "img", "standalone", "--", "--", false⟩,
           ⟨"b", "b", "beta", "running", "img", "standalone", "--", "--", false⟩] }
        1 (some 0)).selected_index = 1
    ∧ (moveSelection
        { initState with containers :=
          [⟨"a", "a", "alpha", "running", "img", "standalone", "--", "--", false⟩,
           ⟨"b", "b", "beta", "running", "img", "standalone", "--", "--", false⟩] }
        1 (some 0)).scroll_offset = 0
    ∧ (getFilteredList
        ({ initState with
           containers :=
            [⟨"a", "a", "alpha", "running", "img", "standalone", "--", "--", false⟩,
             ⟨"b", "b", "beta", "running", "img", "standalone", "--", "--", false⟩],
           selected_index := 1, scroll_offset := 3 })
        "containers").length = 2
    ∧ (moveSelection
        { initState with
          containers :=
            [⟨"a", "a", "alpha", "running", "img", "standalone", "--", "--", false⟩,
             ⟨"b", "b", "beta", "running", "img", "standalone", "--", "--", false⟩],
          selected_index := 1, scroll_offset := 3 }
        0 (some 5)).selected_index = 1
    ∧ (moveSelection
        { initState with
          containers :=
            [⟨"a", "a", "alpha", "running", "img", "standalone", "--", "--", false⟩,
             ⟨"b", "b", "beta", "running", "img", "standalone", "--", "--", false⟩],
          selected_index := 1, scroll_offset := 3 }
        0 (some 5)).scroll_offset = 3 := by
  refine ⟨by decide, by decide, by decide, by decide, by decide, by decide⟩

/-- C8: setting the filter text and then clearing it yields exactly the
full sorted collection of the active tab (the empty-filter projection),
which is a permutation of the raw collection — no drops, no duplicates —
because filtering never mutates the underlying collections. -/
theorem filter_roundtrip_restores_projection (s : AppState) (t : String) (tab : String) :
    getFilteredList (setFilterText (setFilterText s t) "") tab
      = filterCore tab s.sort_mode "" (rawItems s tab)
    ∧ (getFilteredList (setFilterText (setFilterText s t) "") tab).Perm (rawItems s tab)
    ∧ ((rawItems s tab).Nodup →
        (getFilteredList (setFilterText (setFilterText s t) "") tab).Nodup) := by
  have h1 : getFilteredList (setFilterText (setFilterText s t) "") tab
      = getFilteredList { s with filter_text := "" } tab := by
    obtain ⟨a1, a2, a3, a4, a5, a6, _, _⟩ := setFilterText_fields s t
    obtain ⟨b1, b2, b3, b4, b5, b6, b7, _⟩ := setFilterText_fields (setFilterText s t) ""
    exact getFilteredList_congr tab (b1.trans a1) (b2.trans a2) (b3.trans a3)
      (b4.trans a4) (b5.trans a5) (b6.trans a6) b7
  have h2 : getFilteredList { s with filter_text := "" } tab
      = filterCore tab s.sort_mode "" (rawItems s tab) := rfl
  have h3 : (filterCore tab s.sort_mode "" (rawItems s tab)).Perm (rawItems s tab) :=
    filterCore_empty_filter_perm tab s.sort_mode (rawItems s tab)
  refine ⟨h1.trans h2, ?_, ?_⟩
  · rw [h1, h2]; exact h3
  · intro hnd
    rw [h1, h2]
    exact h3.nodup_iff.mpr hnd

/-! ## Cache layer (`src/tockerdui/cache.py`) -/

/-- `cache.CacheEntry` (value, timestamp, ttl; floats as `ℚ`). -/
structure CacheEntry (α : Type) where
  value : α
  timestamp : ℚ
  ttl : ℚ
deriving DecidableEq, Repr

/-- `CacheEntry.is_expired(self)`: `time.time() - self.timestamp > self.ttl`
with the current time passed explicitly. -/
def CacheEntry.isExpired (e : CacheEntry α) (now : ℚ) : Bool :=
  decide (now - e.timestamp > e.ttl)

/-- `CacheManager._cache`: an insertion-ordered dict as an association
list; keys are unique by construction of `dictSet`. -/
abbrev Cache (α : Type) : Type := List (String × CacheEntry α)

/-- Dict read `self._cache[key]` / `key in self._cache`. -/
def lookupEntry : Cache α → String → Option (CacheEntry α)
  | [], _ => none
  | (k', e) :: rest, k => if k' = k then some e else lookupEntry rest k

/-- Dict write `self._cache[key] = entry`: replace in place when the key
exists (keeping its position, as a Python dict does), else append. -/
def dictSet : Cache α → String → CacheEntry α → Cache α
  | [], k, e => [(k, e)]
  | (k', e') :: rest, k, e =>
    if k' = k then (k, e) :: rest else (k', e') :: dictSet rest k e

/-- Dict delete `del self._cache[key]`. -/
def removeKey : Cache α → String → Cache α
  | [], _ => []
  | (k', e') :: rest, k => if k' = k then rest else (k', e') :: removeKey rest k

/-- `CacheManager.ttl_config`, in source order. -/
def ttl_config : List (String × ℚ) :=
  [("containers", 1.0), ("images", 5.0), ("volumes", 10.0), ("networks", 10.0),
   ("composes", 2.0), ("container_stats", 2.0), ("logs", 0.5), ("self_usage", 1.0)]

/-- The TTL resolution of `CacheManager.set`: the explicit override when
given, else the first entry of `ttl_config` (in iteration order) whose key
is a prefix of the cache key, else the default `2.0`. -/
def resolveTTL (key : String) (ttl_override : Option ℚ) : ℚ :=
  match ttl_override with
  | some t => t
  | none =>
    match ttl_config.find? (fun rt => pyStartsWith key rt.1) with
    | some rt => rt.2
    | none => 2.0

/-- `CacheManager.set(key, value, ttl_override)` (statistics counters are
not modelled; they never feed back into behaviour). -/
def cacheSet (c : Cache α) (key : String) (v : α) (now : ℚ)
    (ttl_override : Option ℚ) : Cache α :=
  dictSet c key ⟨v, now, resolveTTL key ttl_override⟩

/-- `CacheManager.get(key)`: `(hit-value?, cache after the call)` —
a miss on an absent key leaves the cache alone, an expired entry is
evicted, a fresh entry is returned. -/
def cacheGet (c : Cache α) (key : String) (now : ℚ) : Option α × Cache α :=
  match lookupEntry c key with
  | none => (none, c)
  | some e => if e.isExpired now then (none, removeKey c key) else (some e.value, c)

/-- `CacheManager.invalidate(pattern)`: no pattern clears everything, a
pattern removes exactly the keys that start with it. -/
def invalidatePat (c : Cache α) (pat : Option String) : Cache α :=
  match pat with
  | none => []
  | some p => c.filter (fun kv => ! pyStartsWith kv.1 p)

/-- The value the `cached` decorator sees: Python's `get` returns `None`
both on a miss and when the stored value is itself `None`, so the stored
values are `Option β` and the two `none`s collapse. -/
def pyGetValue (c : Cache (Option β)) (key : String) (now : ℚ) : Option β :=
  match (cacheGet c key now).1 with
  | none => none
  | some v => v

/-- Result of one call through the `cached` decorator's wrapper. -/
structure CachedCallResult (β : Type) where
  result : Option β
  cache : Cache (Option β)
  executed : Bool
deriving Repr

/-- The `cached` decorator's wrapper body: read the cache; when the read
came back `is not None`, serve it without running `func`; otherwise run
`func` and store its result. -/
def cachedCall (c : Cache (Option β)) (key : String) (f : Unit → Option β)
    (now : ℚ) (ttl_override : Option ℚ) : CachedCallResult β :=
  let g := cacheGet c key now
  let cr : Option β := match g.1 with
    | none => none
    | some v => v
  match cr with
  | some w => ⟨some w, g.2, false⟩
  | none =>
    let r := f ()
    ⟨r, cacheSet g.2 key r now ttl_override, true⟩

theorem lookupEntry_dictSet_self (c : Cache α) (k : String) (e : CacheEntry α) :
    lookupEntry (dictSet c k e) k = some e := by
  induction c with
  | nil => simp [dictSet, lookupEntry]
  | cons kv rest ih =>
    by_cases h : kv.1 = k
    · simp [dictSet, h, lookupEntry]
    · simp [dictSet, h, lookupEntry, ih]

theorem resolveTTL_none_pos (k : String) : 0 < resolveTTL k none := by
  unfold resolveTTL
  cases h : ttl_config.find? (fun rt => pyStartsWith k rt.1) with
  | none => norm_num
  | some rt =>
    have hm : rt ∈ ttl_config := List.mem_of_find?_eq_some h
    simp only [ttl_config, List.mem_cons, List.mem_singleton, List.not_mem_nil] at hm
    rcases hm with h1 | h1 | h1 | h1 | h1 | h1 | h1 | h1 | h1 <;> first
      | (subst h1; norm_num)
      | cases h1

/-- C3: a `set` followed immediately by a `get` of the same key returns the
value just stored; `get` returns a stored entry exactly when
`now - timestamp ≤ ttl` and otherwise evicts it and reports a miss (so a
hit is never past its TTL); `invalidate(prefix)` removes exactly the
entries whose key starts with the prefix, and `invalidate()` with no
argument removes every entry. -/
theorem cache_get_set_invalidate (α : Type) (c : Cache α) (k k2 p : String) (v : α)
    (now : ℚ) (e : CacheEntry α) (he : lookupEntry c k = some e) :
    (cacheGet (cacheSet c k v now none) k now).1 = some v
    ∧ (now - e.timestamp ≤ e.ttl → cacheGet c k now = (some e.value, c))
    ∧ (e.ttl < now - e.timestamp → cacheGet c k now = (none, removeKey c k))
    ∧ (∀ w c2, cacheGet c k2 now = (some w, c2) →
        ∃ e2, lookupEntry c k2 = some e2 ∧ e2.value = w ∧ now - e2.timestamp ≤ e2.ttl)
    ∧ (∀ kv : String × CacheEntry α,
        kv ∈ invalidatePat c (some p) ↔ kv ∈ c ∧ pyStartsWith kv.1 p = false)
    ∧ invalidatePat c none = [] := by
  refine ⟨?_, ?_, ?_, ?_, ?_, rfl⟩
  · have hpos : 0 < resolveTTL k none := resolveTTL_none_pos k
    simp only [cacheSet, cacheGet, lookupEntry_dictSet_self, CacheEntry.isExpired]
    rw [sub_self, decide_eq_false (not_lt.mpr hpos.le)]
    rfl
  · intro h
    simp only [cacheGet, he, CacheEntry.isExpired]
    have hc : ¬ (decide (now - e.timestamp > e.ttl) = true) := by
      simpa using not_lt.mpr h
    rw [if_neg hc]
  · intro h
    simp only [cacheGet, he, CacheEntry.isExpired]
    have hc : decide (now - e.timestamp > e.ttl) = true := by simpa using h
    rw [if_pos hc]
  · intro w c2 hg
    cases hl : lookupEntry c k2 with
    | none => simp [cacheGet, hl] at hg
    | some e2 =>
      by_cases hex : e2.isExpired now
      · simp [cacheGet, hl, hex] at hg
      · refine ⟨e2, rfl, ?_, ?_⟩
        · simp [cacheGet, hl, hex] at hg
          exact hg.1
        · have h2 : now ≤ e2.ttl + e2.timestamp := by
            simpa [CacheEntry.isExpired] using hex
          linarith
  · intro kv
    simp [invalidatePat, List.mem_filter]

theorem cache_get_set_invalidate_witness :
    (cacheGet (cacheSet [("containers:x", ⟨"val", 0, 1⟩)] "containers:x" "v2" 0 none)
        "containers:x" 0).1 = some "v2"
    ∧ ((0:ℚ) - 0 ≤ 1 → cacheGet [("containers:x", ⟨"val", 0, 1⟩)] "containers:x" 0 =
        (some "val", [("containers:x", ⟨"val", 0, 1⟩)]))
    ∧ ((1:ℚ) < 0 - 0 → cacheGet [("containers:x", ⟨"val", 0, 1⟩)] "containers:x" 0 =
        (none, removeKey [("containers:x", ⟨"val", 0, 1⟩)] "containers:x"))
    ∧ (∀ w c2, cacheGet [("containers:x", ⟨"val", 0, 1⟩)] "containers:x" 0 = (some w, c2) →
        ∃ e2, lookupEntry [("containers:x", ⟨"val", 0, 1⟩)] "containers:x" = some e2 ∧
          e2.value = w ∧ (0:ℚ) - e2.timestamp ≤ e2.ttl)
    ∧ (∀ kv : String × CacheEntry String,
        kv ∈ invalidatePat [("containers:x", ⟨"val", 0, 1⟩)] (some "cont") ↔
          kv ∈ [("containers:x", ⟨"val", 0, 1⟩)] ∧ pyStartsWith kv.1 "cont" = false)
    ∧ invalidatePat [("containers:x", (⟨"val", 0, 1⟩ : CacheEntry String))] none = [] :=
  cache_get_set_invalidate String [("containers:x", ⟨"val", 0, 1⟩)]
    "containers:x" "containers:x" "cont" "v2" 0 ⟨"val", 0, 1⟩ (by decide)

/-! ## TTL resolution is a longest-prefix match (claim C7) -/

theorem isPrefixL_iff (xs ys : List Char) : isPrefixL xs ys = true ↔ xs <+: ys := by
  induction xs generalizing ys with
  | nil => exact iff_of_true rfl List.nil_prefix
  | cons a as ih =>
    cases ys with
    | nil =>
      exact iff_of_false Bool.false_ne_true
        (fun hcon => List.cons_ne_nil a as (List.prefix_nil.mp hcon))
    | cons b bs =>
      rw [show isPrefixL (a :: as) (b :: bs) = (decide (a = b) && isPrefixL as bs) from rfl,
        Bool.and_eq_true, decide_eq_true_eq, ih bs, List.cons_prefix_cons]

theorem find_filter_head (p : α → Bool) (l : List α) : l.find? p = (l.filter p).head? := by
  induction l with
  | nil => rfl
  | cons a as ih =>
    by_cases h : p a
    · rw [List.find?_cons_of_pos _ h, List.filter_cons_of_pos h]
      rfl
    · rw [List.find?_cons_of_neg _ h, List.filter_cons_of_neg h, ih]

theorem prefix_filter_short (key : String) (l : List (String × ℚ))
    (hp : l.Pairwise (fun a b => ¬ (a.1.data <+: b.1.data) ∧ ¬ (b.1.data <+: a.1.data))) :
    (l.filter (fun rt => pyStartsWith key rt.1)).length ≤ 1 := by
  induction l with
  | nil => simp
  | cons a as ih =>
    obtain ⟨ha, has⟩ := List.pairwise_cons.mp hp
    by_cases hm : pyStartsWith key a.1 = true
    · have hrest : as.filter (fun rt => pyStartsWith key rt.1) = [] := by
        rw [List.filter_eq_nil_iff]
        intro b hb hbm
        have h1 : a.1.data <+: key.data := (isPrefixL_iff _ _).mp hm
        have h2 : b.1.data <+: key.data := (isPrefixL_iff _ _).mp hbm
        rcases List.prefix_or_prefix_of_prefix h1 h2 with h | h
        · exact (ha b hb).1 h
        · exact (ha b hb).2 h
      have hstep : List.filter (fun rt => pyStartsWith key rt.1) (a :: as)
          = a :: List.filter (fun rt => pyStartsWith key rt.1) as := by
        simp [List.filter_cons, hm]
      rw [hstep, hrest]
      simp
    · have hstep : List.filter (fun rt => pyStartsWith key rt.1) (a :: as)
          = List.filter (fun rt => pyStartsWith key rt.1) as := by
        simp [List.filter_cons, hm]
      rw [hstep]
      exact ih has

/-- The per-kind TTL prefixes are pairwise prefix-incomparable, so at most
one `ttl_config` entry can match any cache key. -/
theorem ttl_config_prefix_incomparable :
    ttl_config.Pairwise
      (fun a b => ¬ (a.1.data <+: b.1.data) ∧ ¬ (b.1.data <+: a.1.data)) := by
  decide

/-- The spec's wording of the TTL resolution: explicit override, else the
TTL of the *longest* `ttl_config` key that is a prefix of the cache key,
else the default of 2.0 seconds. -/
def specResolveTTL (key : String) (ttl_override : Option ℚ) : ℚ :=
  match ttl_override with
  | some t => t
  | none =>
    match ttl_config.filter (fun rt => pyStartsWith key rt.1) with
    | [] => 2.0
    | m :: ms =>
      (ms.foldl (fun best rt => if best.1.length < rt.1.length then rt else best) m).2

/-- C7: the TTL stored by `set` is the override when given, else the TTL
of the (unique, hence longest) `ttl_config` prefix of the key, else 2.0 —
the first-match iteration of the source coincides with the spec's
longest-prefix match because the table's keys are pairwise
prefix-incomparable. -/
theorem ttl_resolution_longest_prefix (α : Type) (key : String) (ov : Option ℚ)
    (c : Cache α) (v : α) (now : ℚ) :
    resolveTTL key ov = specResolveTTL key ov
    ∧ lookupEntry (cacheSet c key v now ov) key = some ⟨v, now, resolveTTL key ov⟩ := by
  refine ⟨?_, lookupEntry_dictSet_self c key _⟩
  cases ov with
  | some t => rfl
  | none =>
    unfold resolveTTL specResolveTTL
    rw [find_filter_head]
    have hlen := prefix_filter_short key ttl_config ttl_config_prefix_incomparable
    cases hf : ttl_config.filter (fun rt => pyStartsWith key rt.1) with
    | nil => rfl
    | cons m ms =>
      rw [hf] at hlen
      have hms : ms = [] := by
        simpa using List.length_eq_zero.mp (by simpa using hlen)
      subst hms
      rfl

/-- C10: `CacheManager.get` returns `None` both on a miss (absent or
expired key) and when the stored value is itself `None`, so the two are
indistinguishable to callers; consequently the `cached` wrapper re-runs
the wrapped function whenever the cached result is `None`, and a `None`
result is never served from the cache (`executed = false` implies the
served result is non-`None`). -/
theorem cached_none_miss_conflation (β : Type) (c : Cache (Option β)) (k : String)
    (f : Unit → Option β) (now : ℚ) (ov : Option ℚ) (e : CacheEntry (Option β))
    (he : lookupEntry c k = some e) (hv : e.value = none) :
    pyGetValue c k now = none
    ∧ (∀ (c2 : Cache (Option β)) k2, lookupEntry c2 k2 = none → pyGetValue c2 k2 now = none)
    ∧ (cachedCall c k f now ov).executed = true
    ∧ (∀ (c3 : Cache (Option β)) k3 f3 ov3, (cachedCall c3 k3 f3 now ov3).executed = false →
        ∃ w, (cachedCall c3 k3 f3 now ov3).result = some w) := by
  refine ⟨?_, ?_, ?_, ?_⟩
  · simp only [pyGetValue, cacheGet, he]
    by_cases hex : e.isExpired now
    · simp [hex]
    · simp [hex, hv]
  · intro c2 k2 hl
    simp [pyGetValue, cacheGet, hl]
  · simp only [cachedCall, cacheGet, he]
    by_cases hex : e.isExpired now
    · simp [hex]
    · simp [hex, hv]
  · intro c3 k3 f3 ov3 hexec
    cases hl : lookupEntry c3 k3 with
    | none => simp [cachedCall, cacheGet, hl] at hexec
    | some e3 =>
      by_cases hex : e3.isExpired now
      · simp [cachedCall, cacheGet, hl, hex] at hexec
      · cases hval : e3.value with
        | none => simp [cachedCall, cacheGet, hl, hex, hval] at hexec
        | some w =>
          exact ⟨w, by simp [cachedCall, cacheGet, hl, hex, hval]⟩

theorem cached_none_miss_conflation_witness :
    pyGetValue [("images:", (⟨none, 0, 1⟩ : CacheEntry (Option String)))] "images:" 0 = none
    ∧ (∀ (c2 : Cache (Option String)) k2, lookupEntry c2 k2 = none →
        pyGetValue c2 k2 0 = none)
    ∧ (cachedCall [("images:", (⟨none, 0, 1⟩ : CacheEntry (Option String)))] "images:"
        (fun _ => none) 0 none).executed = true
    ∧ (∀ (c3 : Cache (Option String)) k3 f3 ov3,
        (cachedCall c3 k3 f3 0 ov3).executed = false →
        ∃ w, (cachedCall c3 k3 f3 0 ov3).result = some w) :=
  cached_none_miss_conflation String [("images:", ⟨none, 0, 1⟩)] "images:"
    (fun _ => none) 0 none ⟨none, 0, 1⟩ (by decide) rfl

/-! ## The backend's import of the cache module (claim C9) -/

/-- The names bound at top level in `tockerdui/cache.py` (its imports and
its own definitions): these are the attributes a `from .cache import ...`
can resolve. -/
def cacheModuleBindings : List String :=
  ["time", "threading", "Dict", "Any", "Optional", "List", "Tuple", "dataclass",
   "wraps", "logging", "logger", "CacheEntry", "CacheManager", "cache_manager", "cached"]

/-- The names `backend.py` line 43 requests from the cache module:
`from .cache import cached, cache_manager, cache_with_ttl`. -/
def backendFromCacheImports : List String := ["cached", "cache_manager", "cache_with_ttl"]

/-- A `from m import n1, ..., nk` binds all the names when each one is an
attribute of `m`, and raises `ImportError` at module load time otherwise. -/
def fromImportSucceeds (bindings requested : List String) : Bool :=
  requested.all (fun n => bindings.contains n)

/-- C9: the cache module defines `cached` and `cache_manager` but no
binding named `cache_with_ttl`, while `backend.py` imports exactly that
name at top level, so loading the backend module raises `ImportError`
before any of its code (including the decorated `get_images`) can run. -/
theorem backend_import_of_cache_with_ttl_fails :
    fromImportSucceeds cacheModuleBindings backendFromCacheImports = false
    ∧ "cache_with_ttl" ∈ backendFromCacheImports
    ∧ "cache_with_ttl" ∉ cacheModuleBindings
    ∧ "cached" ∈ cacheModuleBindings
    ∧ "cache_manager" ∈ cacheModuleBindings := by
  refine ⟨rfl, by decide, by decide, by decide, by decide⟩

/-! ## Object identity and `get_snapshot` (claim C6)

`get_snapshot` builds fresh `ContainerInfo` objects for the containers but
passes the *same* image/volume/network/compose objects on via `list(...)`.
To reason about in-place mutation of shared objects, this refinement of
the state model makes the Python heap explicit: each kind's objects live
in a heap list, the state's collections hold references (heap positions),
and mutators write through references.  A snapshot holds the references it
received; fresh container copies are allocated at the end of the container
heap, beyond anything the state references. -/

/-- Write through a reference: replace the object at position `n`. -/
def heapModify (l : List α) (n : ℕ) (f : α → α) : List α :=
  match l, n with
  | [], _ => []
  | x :: xs, 0 => f x :: xs
  | x :: xs, n + 1 => x :: heapModify xs n f

theorem heapModify_getD_ne [Inhabited α] (l : List α) (n b : ℕ) (f : α → α)
    (hb : b ≠ n) : (heapModify l n f).getD b default = l.getD b default := by
  induction l generalizing n b with
  | nil => cases n <;> rfl
  | cons x xs ih =>
    cases n with
    | zero =>
      cases b with
      | zero => exact absurd rfl hb
      | succ b => rfl
    | succ n =>
      cases b with
      | zero => rfl
      | succ b => simpa [heapModify, List.getD] using ih n b (fun h => hb (by omega))

/-- The heap-explicit application state: per-kind object heaps plus the
reference lists and the UI fields the projection reads. -/
structure HState where
  cheap : List ContainerInfo := []
  iheap : List ImageInfo := []
  vheap : List VolumeInfo := []
  nheap : List NetworkInfo := []
  pheap : List ComposeInfo := []
  containers : List ℕ := []
  images : List ℕ := []
  volumes : List ℕ := []
  networks : List ℕ := []
  composes : List ℕ := []
  selected_tab : String := "containers"
  selected_index : ℕ := 0
  filter_text : String := ""
  sort_mode : String := "name"
  bulk_select_mode : Bool := false
  version : ℕ := 0
deriving DecidableEq, Repr, Inhabited

/-- Attribute access through a container reference. -/
def derefC (s : HState) (a : ℕ) : ContainerInfo := s.cheap.getD a default

/-- Attribute access through an image reference. -/
def derefI (s : HState) (a : ℕ) : ImageInfo := s.iheap.getD a default

/-- Attribute access through a volume reference. -/
def derefV (s : HState) (a : ℕ) : VolumeInfo := s.vheap.getD a default

/-- Attribute access through a network reference. -/
def derefN (s : HState) (a : ℕ) : NetworkInfo := s.nheap.getD a default

/-- Attribute access through a compose reference. -/
def derefP (s : HState) (a : ℕ) : ComposeInfo := s.pheap.getD a default

/-- The per-tab reference list (`items = list(self._state...)`). -/
def hRawAddrs (s : HState) (tab : String) : List ℕ :=
  if tab = "containers" then s.containers
  else if tab = "images" then s.images
  else if tab = "volumes" then s.volumes
  else if tab = "networks" then s.networks
  else if tab = "compose" then s.composes
  else []

/-- The sorting step of `_get_filtered_list_unlocked`, lifted to
references (the `hasattr` dispatch resolves statically per kind, as the
per-tab lists are homogeneous). -/
def hSortAddrs (s : HState) (tab : String) (addrs : List ℕ) : List ℕ :=
  if tab = "containers" then
    if s.sort_mode = "name" then
      sortByKey (fun a b => strLtB (derefC s a).name (derefC s b).name) addrs
    else if s.sort_mode = "status" then
      sortByKey (fun a b => strLtB (derefC s a).status (derefC s b).status) addrs
    else if s.sort_mode = "cpu" then
      sortByKey (fun a b => decide (cpuSortKey (derefC s b) < cpuSortKey (derefC s a))) addrs
    else addrs
  else if tab = "images" then
    sortByKey (fun a b => strLtB (derefI s a).id (derefI s b).id) addrs
  else if tab = "volumes" then
    sortByKey (fun a b => strLtB (derefV s a).name (derefV s b).name) addrs
  else if tab = "networks" then
    sortByKey (fun a b => strLtB (derefN s a).name (derefN s b).name) addrs
  else
    sortByKey (fun a b => strLtB (derefP s a).name (derefP s b).name) addrs

/-- The filter match of `_get_filtered_list_unlocked`, lifted to
references. -/
def hMatchAddr (s : HState) (tab : String) (ft : List Char) (a : ℕ) : Bool :=
  if tab = "containers" then
    containsSub (pyLower (derefC s a).name) ft || containsSub (pyLower (derefC s a).image) ft
  else if tab = "images" then
    containsSub (pyLower (derefI s a).short_id) ft ||
      (derefI s a).tags.any (fun t => containsSub (pyLower t) ft)
  else if tab = "volumes" then containsSub (pyLower (derefV s a).name) ft
  else if tab = "networks" then containsSub (pyLower (derefN s a).name) ft
  else containsSub (pyLower (derefP s a).name) ft

/-- `_get_filtered_list_unlocked` on the heap model: the projection is a
list of references into the per-kind heap. -/
def hFilteredAddrs (s : HState) (tab : String) : List ℕ :=
  let addrs := hRawAddrs s tab
  if addrs.isEmpty then []
  else
    let sorted := hSortAddrs s tab addrs
    if s.filter_text = "" then sorted
    else sorted.filter (hMatchAddr s tab (pyLower s.filter_text))

/-- `StateManager.toggle_item_selection` on the heap model: flip
`selected` of the object the current filtered row references. -/
def hToggleItemSelection (s : HState) : HState :=
  if s.bulk_select_mode = false then s
  else
    match (hFilteredAddrs s s.selected_tab).get? s.selected_index with
    | none => s
    | some a =>
      if s.selected_tab = "containers" then
        { s with cheap := heapModify s.cheap a (fun c => { c with selected := !c.selected }),
                 version := s.version + 1 }
      else if s.selected_tab = "images" then
        { s with iheap := heapModify s.iheap a (fun i => { i with selected := !i.selected }),
                 version := s.version + 1 }
      else if s.selected_tab = "volumes" then
        { s with vheap := heapModify s.vheap a (fun v => { v with selected := !v.selected }),
                 version := s.version + 1 }
      else if s.selected_tab = "networks" then
        { s with nheap := heapModify s.nheap a (fun n => { n with selected := !n.selected }),
                 version := s.version + 1 }
      else if s.selected_tab = "compose" then
        { s with pheap := heapModify s.pheap a (fun p => { p with selected := !p.selected }),
                 version := s.version + 1 }
      else s

/-- `StateManager.update_container_stats` on the heap model: write the new
cpu/ram strings through the first state reference whose id matches. -/
def hUpdateContainerStats (s : HState) (cid cpu ram : String) : HState :=
  match s.containers.find? (fun a => (derefC s a).id = cid) with
  | none => s
  | some a =>
    { s with
      cheap := heapModify s.cheap a
        (fun c => { c with cpu_percent := cpu, ram_usage := ram }),
      version := s.version + 1 }

/-- The object references a snapshot holds for each kind. -/
structure HSnapshot where
  containerAddrs : List ℕ := []
  imageAddrs : List ℕ := []
  volumeAddrs : List ℕ := []
  networkAddrs : List ℕ := []
  composeAddrs : List ℕ := []
deriving DecidableEq, Repr

/-- `StateManager.get_snapshot` on the heap model: the containers are
copied into fresh objects (note the source passes 8 positional fields, so
the copy's `selected` resets to the default `False`); the other four kinds
are passed on as the same objects (`list(...)` is a shallow copy). -/
def hGetSnapshot (s : HState) : HState × HSnapshot :=
  let fc := hFilteredAddrs s "containers"
  let copies := fc.map (fun a =>
    let c := derefC s a
    ({ id := c.id, short_id := c.short_id, name := c.name, status := c.status,
       image := c.image, project := c.project, cpu_percent := c.cpu_percent,
       ram_usage := c.ram_usage } : ContainerInfo))
  ({ s with cheap := s.cheap ++ copies },
   { containerAddrs := List.range' s.cheap.length copies.length,
     imageAddrs := hFilteredAddrs s "images",
     volumeAddrs := hFilteredAddrs s "volumes",
     networkAddrs := hFilteredAddrs s "networks",
     composeAddrs := hFilteredAddrs s "compose" })

/-- The container items an outside reader observes through a snapshot. -/
def snapContainers (s : HState) (sn : HSnapshot) : List ContainerInfo :=
  sn.containerAddrs.map (derefC s)

/-- The image items an outside reader observes through a snapshot. -/
def snapImages (s : HState) (sn : HSnapshot) : List ImageInfo :=
  sn.imageAddrs.map (derefI s)

theorem hSortAddrs_perm (s : HState) (tab : String) (addrs : List ℕ) :
    (hSortAddrs s tab addrs).Perm addrs := by
  unfold hSortAddrs
  repeat' split
  all_goals first
    | exact sortByKey_perm _ _
    | exact List.Perm.refl _

theorem hFilteredAddrs_sub {s : HState} {tab : String} {a : ℕ}
    (h : a ∈ hFilteredAddrs s tab) : a ∈ hRawAddrs s tab := by
  simp only [hFilteredAddrs] at h
  split at h
  · cases h
  · split at h
    · exact (hSortAddrs_perm s tab _).mem_iff.mp h
    · exact (hSortAddrs_perm s tab _).mem_iff.mp (List.mem_filter.mp h).1

theorem snapContainers_eq_of_cheap_getD (s₁ s₂ : HState) (sn : HSnapshot)
    (h : ∀ b ∈ sn.containerAddrs, s₁.cheap.getD b default = s₂.cheap.getD b default) :
    snapContainers s₁ sn = snapContainers s₂ sn := by
  unfold snapContainers derefC
  exact List.map_congr_left h

/-- C6 (amended): the container projection of a snapshot consists of fresh
copies, so the in-place mutators (`toggle_item_selection`,
`update_container_stats`) never change a container item of a previously
returned snapshot; the other four kinds share their objects with the
state, and `toggle_item_selection` visibly mutates an image item of a
prior snapshot (see the counterexample). -/
theorem get_snapshot_container_copies_frame (s : HState) (cid cpu ram : String)
    (wf : ∀ a ∈ s.containers, a < s.cheap.length) :
    snapContainers (hToggleItemSelection (hGetSnapshot s).1) (hGetSnapshot s).2
      = snapContainers (hGetSnapshot s).1 (hGetSnapshot s).2
    ∧ snapContainers (hUpdateContainerStats (hGetSnapshot s).1 cid cpu ram) (hGetSnapshot s).2
      = snapContainers (hGetSnapshot s).1 (hGetSnapshot s).2 := by
  have haddr : ∀ b ∈ (hGetSnapshot s).2.containerAddrs, s.cheap.length ≤ b :=
    fun b hb => (List.mem_range'_1.mp hb).1
  constructor
  · unfold hToggleItemSelection
    split
    · rfl
    · cases hget : (hFilteredAddrs (hGetSnapshot s).1
          ((hGetSnapshot s).1).selected_tab).get? ((hGetSnapshot s).1).selected_index with
      | none => rfl
      | some a =>
        dsimp only
        by_cases htab : ((hGetSnapshot s).1).selected_tab = "containers"
        · rw [if_pos htab]
          have hmem : a ∈ hFilteredAddrs (hGetSnapshot s).1 ((hGetSnapshot s).1).selected_tab :=
            List.get?_mem hget
          rw [htab] at hmem
          have hraw : a ∈ hRawAddrs (hGetSnapshot s).1 "containers" := hFilteredAddrs_sub hmem
          have hac : a ∈ s.containers := hraw
          have haL : a < s.cheap.length := wf a hac
          apply snapContainers_eq_of_cheap_getD
          intro b hb
          exact heapModify_getD_ne _ a b _ (by have := haddr b hb; omega)
        · rw [if_neg htab]
          repeat' split
          all_goals rfl
  · unfold hUpdateContainerStats
    cases hfind : ((hGetSnapshot s).1).containers.find?
        (fun a => (derefC (hGetSnapshot s).1 a).id = cid) with
    | none => rfl
    | some a =>
      dsimp only
      have hac : a ∈ s.containers := List.mem_of_find?_eq_some hfind
      have haL : a < s.cheap.length := wf a hac
      apply snapContainers_eq_of_cheap_getD
      intro b hb
      exact heapModify_getD_ne _ a b _ (by have := haddr b hb; omega)

/-- A one-container heap state used to instantiate the snapshot frame
theorem. -/
def frameDemoState : HState :=
  { cheap := [⟨"c1", "c1", "web", "running", "img", "standalone", "--", "--", false⟩],
    containers := [0] }

/-- A one-image heap state on the images tab in bulk mode. -/
def shareDemoState : HState :=
  { iheap := [⟨"i1", "i1s", ["t"], 0, "2024", false⟩],
    images := [0], selected_tab := "images", bulk_select_mode := true }

theorem get_snapshot_container_copies_frame_witness :
    snapContainers (hToggleItemSelection (hGetSnapshot frameDemoState).1)
        (hGetSnapshot frameDemoState).2
      = snapContainers (hGetSnapshot frameDemoState).1 (hGetSnapshot frameDemoState).2
    ∧ snapContainers
        (hUpdateContainerStats (hGetSnapshot frameDemoState).1 "c1" "1.0%" "2.0MB")
        (hGetSnapshot frameDemoState).2
      = snapContainers (hGetSnapshot frameDemoState).1 (hGetSnapshot frameDemoState).2 :=
  get_snapshot_container_copies_frame frameDemoState "c1" "1.0%" "2.0MB" (by decide)

/-- C6 is refuted as stated: `get_snapshot` shallow-copies the image list
(`list(self._state.images)` shares the objects), so after a snapshot is
taken on the images tab in bulk mode, `toggle_item_selection` flips the
`selected` field of an image item *inside the previously returned
snapshot*. -/
theorem snapshot_images_share_objects :
    snapImages (hToggleItemSelection (hGetSnapshot shareDemoState).1)
        (hGetSnapshot shareDemoState).2
      ≠ snapImages (hGetSnapshot shareDemoState).1 (hGetSnapshot shareDemoState).2 := by
  decide
